import Mathlib

/-!
# econagents — verification of the session-orchestration layer

Shallow embedding, in Lean 4, of the event-dispatch pipeline
(`econagents/core/manager/base.py`), the declarative state synchronizer
(`econagents/core/state/game.py`) and the phase-transition state machine
(`econagents/core/manager/phase.py`), together with theorems settling the
frozen claims about those components.

Conventions:
* Python dictionaries are modelled as association lists (`List (String × _)`)
  with first-match lookup; Python `None` is `Option.none`.
* A Python callable that may raise is modelled as a function into
  `Except PyErr _`; `PyErr` covers ordinary `Exception`s (an `except
  Exception` clause catches every `PyErr`).  `asyncio.CancelledError`, which
  is *not* an `Exception` and is handled by a dedicated clause in the
  continuous-phase loop, is modelled separately where it matters
  (`ActionOutcome.cancelled`).
* `await` points are sequential in the single cooperative event loop, so a
  coroutine that runs to completion is embedded as a plain function.
-/

namespace Econagents

/-- Python exception values raised by the embedded code (all subclasses of
`Exception`; `asyncio.CancelledError` is deliberately not here). -/
inductive PyErr where
  | attributeError
  | valueError (msg : String)
  | exception (msg : String)
deriving DecidableEq, Repr

/-- `econagents/core/events.py`: the typed message produced from one inbound
frame.  The payload is kept abstract (`δ` stands for the `dict[str, Any]`
in `data`). -/
structure Message (δ : Type) where
  message_type : String
  event_type : String
  data : δ
deriving DecidableEq, Repr

/-! ## Event dispatcher (`econagents/core/manager/base.py`)

`AgentManager` keeps six registries (base.py:29-39): per-event-type handler,
pre-hook and post-hook dictionaries, and the three global lists.  Callables
are identified by labels of an arbitrary type `K`; their behaviour is a
semantic function `sem : K → St → Except PyErr St` supplied at dispatch
time (the state `St` stands for whatever mutable objects the hooks touch;
the dispatched `Message` is fixed for the call, so it is folded into
`sem`). -/

structure Dispatcher (K : Type) where
  event_handlers : List (String × List K) := []
  global_event_handlers : List K := []
  pre_event_hooks : List (String × List K) := []
  post_event_hooks : List (String × List K) := []
  global_pre_event_hooks : List K := []
  global_post_event_hooks : List K := []
deriving Repr

/-- `dict` update used by every specific-registration method
(e.g. base.py:125-127): create the list on first use, then append. -/
def dictAppend {K : Type} (d : List (String × List K)) (et : String) (k : K) :
    List (String × List K) :=
  if (d.lookup et).isSome then
    d.map fun p => if p.1 = et then (p.1, p.2 ++ [k]) else p
  else
    d ++ [(et, [k])]

/-- base.py:117-128 `register_event_handler`. -/
def registerEventHandler {K : Type} (d : Dispatcher K) (et : String) (h : K) :
    Dispatcher K :=
  { d with event_handlers := dictAppend d.event_handlers et h }

/-- base.py:130-138 `register_global_event_handler`. -/
def registerGlobalEventHandler {K : Type} (d : Dispatcher K) (h : K) :
    Dispatcher K :=
  { d with global_event_handlers := d.global_event_handlers ++ [h] }

/-- base.py:141-152 `register_pre_event_hook`. -/
def registerPreEventHook {K : Type} (d : Dispatcher K) (et : String) (h : K) :
    Dispatcher K :=
  { d with pre_event_hooks := dictAppend d.pre_event_hooks et h }

/-- base.py:154-162 `register_global_pre_event_hook`. -/
def registerGlobalPreEventHook {K : Type} (d : Dispatcher K) (h : K) :
    Dispatcher K :=
  { d with global_pre_event_hooks := d.global_pre_event_hooks ++ [h] }

/-- base.py:165-176 `register_post_event_hook`. -/
def registerPostEventHook {K : Type} (d : Dispatcher K) (et : String) (h : K) :
    Dispatcher K :=
  { d with post_event_hooks := dictAppend d.post_event_hooks et h }

/-- base.py:178-186 `register_global_post_event_hook`. -/
def registerGlobalPostEventHook {K : Type} (d : Dispatcher K) (h : K) :
    Dispatcher K :=
  { d with global_post_event_hooks := d.global_post_event_hooks ++ [h] }

/-- base.py:101-107 `_execute_hooks`: run the callables of one stage in
order; each invocation sits in its own `try/except Exception` whose handler
only logs, so a raise neither stops the stage nor escapes it.  Returns the
final state, the trace of invoked callables, and the sub-trace of callables
whose invocation raised (the logged errors). -/
def executeHooks {K St : Type} (sem : K → St → Except PyErr St) :
    List K → St → St × List K × List K
  | [], st => (st, [], [])
  | h :: hs, st =>
    match sem h st with
    | .ok st' =>
      let r := executeHooks sem hs st'
      (r.1, h :: r.2.1, r.2.2)
    | .error _ =>
      -- `except Exception as e: self.logger.error(...)` — logged, continue
      let r := executeHooks sem hs st
      (r.1, h :: r.2.1, h :: r.2.2)

/-- The list a specific-scope stage runs for `et`: base.py guards each
specific stage with `if event_type in dict` before indexing, which is the
same as running the empty list when the key is absent. -/
def stageFor {K : Type} (d : List (String × List K)) (et : String) : List K :=
  (d.lookup et).getD []

/-- base.py:63-99 `on_event`: the six stages in their fixed order.  Returns
the final state, the full invocation trace and the logged-error trace. -/
def onEvent {K St : Type} (d : Dispatcher K) (sem : K → St → Except PyErr St)
    (event_type : String) (st : St) : St × List K × List K :=
  let r1 := executeHooks sem d.global_pre_event_hooks st
  let r2 := executeHooks sem (stageFor d.pre_event_hooks event_type) r1.1
  let r3 := executeHooks sem d.global_event_handlers r2.1
  let r4 := executeHooks sem (stageFor d.event_handlers event_type) r3.1
  let r5 := executeHooks sem (stageFor d.post_event_hooks event_type) r4.1
  let r6 := executeHooks sem d.global_post_event_hooks r5.1
  (r6.1,
   r1.2.1 ++ r2.2.1 ++ r3.2.1 ++ r4.2.1 ++ r5.2.1 ++ r6.2.1,
   r1.2.2 ++ r2.2.2 ++ r3.2.2 ++ r4.2.2 ++ r5.2.2 ++ r6.2.2)

/-! ## State synchronizer (`econagents/core/state/game.py`)

`GameState` holds three pydantic namespaces.  `meta` declares `phase : int
= 0` (game.py:58) plus open extra fields; `private_information` and
`public_information` are fully open.  Field values are kept abstract as a
small JSON-like type `Value`; a namespace is an association list together
with, for `meta`, the declared `phase` field.  `setattr` overwrites an
existing key or adds a new one. -/

/-- A Python value stored in a state field or an event payload (the claims
only move values around, so scalars suffice). -/
inductive Value where
  | vInt (n : Int)
  | vStr (s : String)
  | vBool (b : Bool)
deriving DecidableEq, Repr

/-- `setattr(obj, key, value)` on an open pydantic namespace: overwrite the
field if present, create it otherwise. -/
def setField (fields : List (String × Value)) (key : String) (v : Value) :
    List (String × Value) :=
  if (fields.lookup key).isSome then
    fields.map fun p => if p.1 = key then (p.1, v) else p
  else
    fields ++ [(key, v)]

/-- game.py:12-33 `PropertyMapping` — exactly the fields the class declares.
There is no event filter: the class has no `events`/`exclude_events`
fields and no `should_apply_in_event` method in this revision of
`econagents/core/state/game.py`. -/
structure PropertyMapping where
  event_key : String
  state_key : String
  state_type : String := "private"
  phases : Option (List Int) := none
  exclude_phases : Option (List Int) := none
deriving DecidableEq, Repr

/-- Pydantic construction of a `PropertyMapping`.  The model's config keeps
pydantic's default `extra` behaviour, which silently ignores unknown
keyword arguments, so the `events`/`exclude_events` keywords used by the
repository's tests are dropped.  `model_post_init` (game.py:30-33) raises
`ValueError` iff both `phases` and `exclude_phases` are given. -/
def propertyMappingInit (event_key state_key state_type : String)
    (phases exclude_phases : Option (List Int))
    (events exclude_events : Option (List String)) :
    Except PyErr PropertyMapping :=
  if phases.isSome ∧ exclude_phases.isSome then
    .error (.valueError "Cannot specify both phases and exclude_phases")
  else
    .ok { event_key := event_key, state_key := state_key,
          state_type := state_type, phases := phases,
          exclude_phases := exclude_phases }

/-- game.py:35-41 `PropertyMapping.should_apply_in_phase`. -/
def PropertyMapping.should_apply_in_phase (m : PropertyMapping)
    (current_phase : Int) : Bool :=
  match m.phases with
  | some ps => ps.contains current_phase
  | none =>
    match m.exclude_phases with
    | some ps => !ps.contains current_phase
    | none => true

/-- The data of one `GameState` instance (game.py:71-75).  `metaPhase` is
the declared `meta.phase` field; `meta` carries the extra meta fields. -/
structure GState where
  metaPhase : Int := 0
  meta : List (String × Value) := []
  private_information : List (String × Value) := []
  public_information : List (String × Value) := []
deriving DecidableEq, Repr

/-- An `EventData` is the `data` dict of an event. -/
def EventData := List (String × Value)

/-- A custom event handler (game.py:8 `EventHandler`): called with
`(event_type, data)`; it may mutate the state arbitrarily, so it is a
state transformer here. -/
def CustomHandler := String → EventData → GState → GState

/-- A concrete `GameState` subclass: the data plus the two overridable
methods `get_property_mappings` (game.py:120-126) and
`get_custom_handlers` (game.py:128-133), the latter as an association
list keyed by event type. -/
structure GameStateClass where
  property_mappings : List PropertyMapping
  custom_handlers : List (String × CustomHandler)

/-- `setattr(self.meta, key, value)`: `phase` is the declared int field —
writing an int into it updates `metaPhase` (pydantic coercion of non-int
values into the declared `int` field is outside the embedded fragment;
no claim exercises it) — any other key lands in the open extras. -/
def setMetaAttr (st : GState) (key : String) (v : Value) : GState :=
  if key = "phase" then
    match v with
    | .vInt n => { st with metaPhase := n }
    | _ => st
  else
    { st with meta := setField st.meta key v }

/-- game.py:77-118 `GameState.update_state`: consult the custom handlers
first and return after running one; otherwise fold the declarative
property mappings over the state, skipping a mapping whose phase filter
rejects `self.meta.phase` or whose `event_key` is absent from the event
data. -/
def updateState (cls : GameStateClass) (st : GState)
    (ev : Message EventData) : GState :=
  match cls.custom_handlers.lookup ev.event_type with
  | some h => h ev.event_type ev.data st
  | none =>
    cls.property_mappings.foldl
      (fun st m =>
        -- game.py:103-104: skip if the phase filter rejects self.meta.phase
        if ¬ m.should_apply_in_phase st.metaPhase then st
        else
          -- game.py:107-108: skip if event_key is not in event.data
          match ev.data.lookup m.event_key with
          | none => st
          | some v =>
            -- game.py:113-118: write value into the selected namespace
            if m.state_type = "meta" then setMetaAttr st m.state_key v
            else if m.state_type = "private" then
              { st with private_information :=
                  setField st.private_information m.state_key v }
            else if m.state_type = "public" then
              { st with public_information :=
                  setField st.public_information m.state_key v }
            else st)
      st

/-- Python attribute lookup of a zero-or-one-argument *method* on a
`GameState` instance, as used by callers that invoke `state.<name>(msg)`.
The class defines the method `update_state` (game.py:77) — and the
non-method attributes `meta`, `private_information`, `public_information`,
`get_property_mappings`, `get_custom_handlers`, none of which is named
`update` either — so looking up any other method name raises
`AttributeError` before anything is called. -/
def gameStateGetMethod (name : String) :
    Except PyErr (GameStateClass → GState → Message EventData → GState) :=
  if name = "update_state" then .ok (fun cls st ev => updateState cls st ev)
  else .error .attributeError

/-- phase.py:192-196 `PhaseManager._update_state`, the global pre-event
hook registered whenever a state snapshot is configured (phase.py:89):
with `self._state` set it runs `self._state.update(message)` — an
attribute lookup of `update`, not `update_state`. -/
def phaseManagerUpdateState (cls : GameStateClass) (st : GState)
    (ev : Message EventData) : Except PyErr GState :=
  match gameStateGetMethod "update" with
  | .ok f => .ok (f cls st ev)
  | .error e => .error e

/-! ## Phase state machine (`econagents/core/manager/phase.py`)

The session-runtime state mutated by `handle_phase_transition`
(phase.py:210-256) and `stop` (phase.py:318-324).  Each
`asyncio.create_task(self._continuous_phase_loop(p))` is modelled as a
`LoopTask` record carrying a fresh id, the phase it loops for, and the
number of times `.cancel()` has been called on it.  `on_phase_end` and
`on_phase_start` are the default no-ops (phase.py:296-316), and
`execute_phase_action` does not touch this state. -/

/-- One spawned `_continuous_phase_loop` task. -/
structure LoopTask where
  id : Nat
  phase : Int
  cancelCount : Nat
deriving DecidableEq, Repr

/-- The `PhaseManager` fields involved in phase transitions
(phase.py:73,80-81), plus the bookkeeping of spawned tasks. -/
structure PMState where
  current_phase : Option Int
  in_continuous_phase : Bool
  continuous_task : Option Nat
  tasks : List LoopTask
  next_id : Nat
deriving DecidableEq, Repr

/-- The constructor's initial runtime state: `current_phase = None`,
`in_continuous_phase = False`, no task. -/
def initPMState : PMState :=
  { current_phase := none, in_continuous_phase := false,
    continuous_task := none, tasks := [], next_id := 0 }

/-- `task.cancel()` on the task with the given id. -/
def cancelTask (ts : List LoopTask) (i : Nat) : List LoopTask :=
  ts.map fun t => if t.id = i then { t with cancelCount := t.cancelCount + 1 } else t

/-- phase.py:248 `if self.continuous_phases and new_phase in
self.continuous_phases`: the property may be `None` (falsy) or an empty
set (falsy); otherwise Python set membership. -/
def continuousCheck (cont : Option (List Int)) (p : Int) : Bool :=
  match cont with
  | none => false
  | some l => !l.isEmpty && l.contains p

/-- phase.py:210-256 `handle_phase_transition`, parametrized by the
configured `continuous_phases`:
1. if `in_continuous_phase` and the new phase differs from the current
   one, clear the flag and cancel the stored task (phase.py:228-233);
2. run the `on_phase_end` no-op for the old phase (phase.py:236-238);
3. set `current_phase = new_phase` (phase.py:241);
4. stop if the new phase is `None` (phase.py:243);
5. run the `on_phase_start` no-op, then either spawn a fresh
   `_continuous_phase_loop` task and set the flag (phase.py:248-253) or
   just execute one action (phase.py:254-256); `execute_phase_action`
   leaves this state untouched. -/
def handlePhaseTransition (cont : Option (List Int)) (s : PMState)
    (new_phase : Option Int) : PMState :=
  let s1 :=
    if s.in_continuous_phase = true ∧ new_phase ≠ s.current_phase then
      { s with in_continuous_phase := false,
               tasks := match s.continuous_task with
                        | some i => cancelTask s.tasks i
                        | none => s.tasks,
               continuous_task := none }
    else s
  let s2 := { s1 with current_phase := new_phase }
  match new_phase with
  | none => s2
  | some p =>
    if continuousCheck cont p then
      { s2 with in_continuous_phase := true,
                continuous_task := some s2.next_id,
                tasks := s2.tasks ++ [⟨s2.next_id, p, 0⟩],
                next_id := s2.next_id + 1 }
    else s2

/-- A spawned task keeps looping past its next wake-up iff it was never
cancelled (its `CancelledError` would end it, phase.py:278), the `while
self.in_continuous_phase` guard holds (phase.py:266) and the re-check
`self.current_phase == phase` holds (phase.py:273).  A task failing this
test performs no further action and exits at its next wake-up, so this is
the notion of a *live* continuous loop once the scheduler settles. -/
def taskWillContinue (s : PMState) (t : LoopTask) : Bool :=
  t.cancelCount == 0 && s.in_continuous_phase && s.current_phase == some t.phase

/-- Some continuous-loop task is alive (in the settled sense above). -/
def loopTaskAlive (s : PMState) : Bool :=
  s.tasks.any (taskWillContinue s)

/-- The invariant connecting the flag, the stored task handle and the
task pool; it holds initially and is preserved by every transition. -/
def PMInv (cont : Option (List Int)) (s : PMState) : Prop :=
  (s.in_continuous_phase = true ↔
     ∃ p, s.current_phase = some p ∧ continuousCheck cont p = true) ∧
  (s.in_continuous_phase = true →
     ∃ t, t ∈ s.tasks ∧ t.cancelCount = 0 ∧ s.current_phase = some t.phase)

/-! ## Continuous-phase loop body (`phase.py:258-281`)

The loop's interaction with the scheduler is modelled by the sequence of
iteration environments it observes: the flag value at the `while` check,
the flag and phase values after the randomized sleep, and the outcome of
`execute_phase_action`.  The `try` wraps the whole `while`, with
`except asyncio.CancelledError` and `except Exception` after the loop. -/

/-- Outcome of one `await self.execute_phase_action(phase)`. -/
inductive ActionOutcome where
  | ok
  | raises
  | cancelled
deriving DecidableEq, Repr

/-- What one prospective iteration of the loop observes. -/
structure LoopIter where
  in_cont_at_check : Bool
  in_cont_after_sleep : Bool
  phase_matches : Bool
  action : ActionOutcome
deriving DecidableEq, Repr

/-- How the loop task ended (or that it is still looping when the observed
environment runs out). -/
inductive LoopEnd where
  | whileExit
  | recheckBreak
  | cancelledLogged
  | exceptionLogged
  | running
deriving DecidableEq, Repr

/-- phase.py:258-281 `_continuous_phase_loop`: returns how many actions
were attempted and how the task ended.  An exception from
`execute_phase_action` propagates out of the `while` into the
`except Exception` clause (phase.py:280-281): it is logged and the task
ends — the clause is outside the loop, so there is no next iteration. -/
def continuousPhaseLoop : List LoopIter → Nat × LoopEnd
  | [] => (0, .running)
  | it :: rest =>
    if !it.in_cont_at_check then (0, .whileExit)
    else if !it.in_cont_after_sleep || !it.phase_matches then (0, .recheckBreak)
    else
      match it.action with
      | .ok =>
        let r := continuousPhaseLoop rest
        (r.1 + 1, r.2)
      | .raises => (1, .exceptionLogged)
      | .cancelled => (1, .cancelledLogged)

/-! ## Transport receive loop (`econagents/core/manager/base.py:41-50,295-307`)

Inbound frames are raw strings; `json.loads` either fails (not JSON) or
yields a JSON value.  `_extract_message_data` catches only
`json.JSONDecodeError`; on a parsed non-object value, `msg.get("type",
"")` raises `AttributeError` (ints, lists, strings and booleans have no
`.get`), which nobody catches until the receive loop's blanket
`except Exception`, which logs and `break`s. -/

/-- A JSON value, as returned by `json.loads` on a well-formed frame. -/
inductive Json where
  | jNull
  | jBool (b : Bool)
  | jNum (n : Int)
  | jStr (s : String)
  | jArr (xs : List Json)
  | jObj (fields : List (String × Json))

/-- One inbound frame: either not JSON at all, or a JSON value. -/
inductive Frame where
  | notJson (raw : String)
  | json (v : Json)

/-- One iteration's input to the receive loop: a frame delivered by
`self.ws.recv()`, or the connection closing (`ConnectionClosed`). -/
inductive RecvItem where
  | frame (f : Frame)
  | closed

/-- How `receive_messages` left its `while True` loop (`running` means the
observed input ran out with the loop still awaiting the next frame). -/
inductive RecvEnd where
  | connClosed
  | errorBreak
  | running
deriving DecidableEq, Repr

/-- base.py:41-50 `_extract_message_data`.  `Ok none` is the logged-and-
dropped non-JSON case; `Ok (some _)` carries the extracted fields
(`msg.get` with defaults `""`, `""`, the empty dict); `error` is the
uncaught exception escaping the method. -/
def extractMessageData : Frame → Except PyErr (Option (Message Json))
  | .notJson _ => .ok none
  | .json (.jObj fs) =>
    .ok (some { message_type := match fs.lookup "type" with
                                | some (.jStr s) => s
                                | _ => "",
                event_type := match fs.lookup "eventType" with
                              | some (.jStr s) => s
                              | _ => "",
                data := (fs.lookup "data").getD (.jObj []) })
  | .json _ => .error .attributeError

/-- base.py:295-307 `receive_messages`: count of messages handed to
`on_message` and the way the loop ended.  A `None` from
`_extract_message_data` is falsy, so the frame is skipped and the loop
continues; an uncaught exception hits `except Exception`, is logged, and
`break`s the loop, ending the session. -/
def receiveMessages : List RecvItem → Nat × RecvEnd
  | [] => (0, .running)
  | .closed :: _ => (0, .connClosed)
  | .frame f :: rest =>
    match extractMessageData f with
    | .ok none => receiveMessages rest
    | .ok (some _) =>
      let r := receiveMessages rest
      (r.1 + 1, r.2)
    | .error _ => (0, .errorBreak)

theorem executeHooks_trace {K St : Type} (sem : K → St → Except PyErr St)
    (hs : List K) (st : St) : (executeHooks sem hs st).2.1 = hs := by
  induction hs generalizing st with
  | nil => rfl
  | cons h t ih =>
    unfold executeHooks
    cases sem h st <;> simp [ih]

theorem onEvent_trace {K St : Type} (d : Dispatcher K)
    (sem : K → St → Except PyErr St) (et : String) (st : St) :
    (onEvent d sem et st).2.1 =
      d.global_pre_event_hooks ++ stageFor d.pre_event_hooks et ++
      d.global_event_handlers ++ stageFor d.event_handlers et ++
      stageFor d.post_event_hooks et ++ d.global_post_event_hooks := by
  unfold onEvent
  simp [executeHooks_trace]

/-- The semantics of a set of callables that never mutate shared state and
either return normally or raise, depending only on the callable
(the instrumented no-op / throwing callables of the spec's scenarios). -/
def throwSem {K St : Type} (throws : K → Bool) : K → St → Except PyErr St :=
  fun k st => if throws k then .error (.exception "callable raised") else .ok st

theorem throwSem_apply {K St : Type} (throws : K → Bool) (k : K) (st : St) :
    throwSem throws k st =
      if throws k then .error (.exception "callable raised") else .ok st := rfl

theorem executeHooks_throwSem_errors {K St : Type} (throws : K → Bool)
    (hs : List K) (st : St) :
    (executeHooks (throwSem throws) hs st).2.2 = hs.filter throws := by
  induction hs generalizing st with
  | nil => rfl
  | cons h t ih =>
    unfold executeHooks
    rw [throwSem_apply]
    by_cases hb : throws h <;> simp [hb, ih, List.filter_cons]

theorem executeHooks_throwSem_state {K St : Type} (throws : K → Bool)
    (hs : List K) (st : St) :
    (executeHooks (throwSem throws) hs st).1 = st := by
  induction hs generalizing st with
  | nil => rfl
  | cons h t ih =>
    unfold executeHooks
    rw [throwSem_apply]
    by_cases hb : throws h <;> simp [hb, ih]

theorem onEvent_throwSem_errors {K St : Type} (d : Dispatcher K)
    (throws : K → Bool) (et : String) (st : St) :
    (onEvent d (throwSem throws) et st).2.2 =
      ((onEvent d (throwSem throws) et st).2.1).filter throws := by
  unfold onEvent
  simp [executeHooks_throwSem_errors, executeHooks_trace, List.filter_append]

theorem handlePhaseTransition_current (cont : Option (List Int))
    (s : PMState) (e : Option Int) :
    (handlePhaseTransition cont s e).current_phase = e := by
  unfold handlePhaseTransition
  cases e <;> dsimp only <;> split <;> rfl

theorem continuousCheck_some_iff (l : List Int) (p : Int) :
    continuousCheck (some l) p = true ↔ p ∈ l := by
  unfold continuousCheck
  constructor
  · intro h
    simp only [Bool.and_eq_true] at h
    simpa using h.2
  · intro h
    have hne : l ≠ [] := by rintro rfl; simp at h
    simp [List.isEmpty_iff, hne, h]

theorem pmInv_init (cont : Option (List Int)) : PMInv cont initPMState := by
  constructor
  · constructor
    · intro h; simp [initPMState] at h
    · rintro ⟨p, hp, -⟩; simp [initPMState] at hp
  · intro h; simp [initPMState] at h

theorem pmInv_step (cont : Option (List Int)) (s : PMState) (e : Option Int)
    (h : PMInv cont s) : PMInv cont (handlePhaseTransition cont s e) := by
  obtain ⟨h1, h2⟩ := h
  unfold handlePhaseTransition
  by_cases hc : s.in_continuous_phase = true ∧ e ≠ s.current_phase
  · rw [if_pos hc]
    cases e with
    | none =>
      refine ⟨⟨?_, ?_⟩, ?_⟩
      · intro hfalse; simp at hfalse
      · rintro ⟨p, hp, -⟩; simp at hp
      · intro hfalse; simp at hfalse
    | some p =>
      by_cases hk : continuousCheck cont p = true
      · dsimp only
        rw [if_pos hk]
        refine ⟨⟨fun _ => ⟨p, rfl, hk⟩, fun _ => rfl⟩, fun _ => ?_⟩
        exact ⟨⟨s.next_id, p, 0⟩, by simp, rfl, rfl⟩
      · dsimp only
        rw [if_neg hk]
        refine ⟨⟨?_, ?_⟩, ?_⟩
        · intro hfalse; simp at hfalse
        · rintro ⟨q, hq, hkq⟩
          simp only [PMState.current_phase] at hq
          cases hq
          exact absurd hkq hk
        · intro hfalse; simp at hfalse
  · rw [if_neg hc]
    push_neg at hc
    cases e with
    | none =>
      have hic : s.in_continuous_phase = false := by
        by_contra hne
        have htrue : s.in_continuous_phase = true := by
          revert hne; cases s.in_continuous_phase <;> simp
        have hcur := hc htrue
        obtain ⟨q, hq, -⟩ := h1.mp htrue
        rw [← hcur] at hq
        exact Option.noConfusion hq
      refine ⟨⟨?_, ?_⟩, ?_⟩
      · intro hfalse; rw [hic] at hfalse; exact Bool.noConfusion hfalse
      · rintro ⟨p, hp, -⟩; simp at hp
      · intro hfalse; rw [hic] at hfalse; exact Bool.noConfusion hfalse
    | some p =>
      by_cases hk : continuousCheck cont p = true
      · dsimp only
        rw [if_pos hk]
        refine ⟨⟨fun _ => ⟨p, rfl, hk⟩, fun _ => rfl⟩, fun _ => ?_⟩
        exact ⟨⟨s.next_id, p, 0⟩, by simp, rfl, rfl⟩
      · dsimp only
        rw [if_neg hk]
        have hic : s.in_continuous_phase = false := by
          by_contra hne
          have htrue : s.in_continuous_phase = true := by
            revert hne; cases s.in_continuous_phase <;> simp
          have hcur := hc htrue
          obtain ⟨q, hq, hkq⟩ := h1.mp htrue
          rw [← hcur] at hq
          cases hq
          exact absurd hkq hk
        refine ⟨⟨?_, ?_⟩, ?_⟩
        · intro hfalse; rw [hic] at hfalse; exact Bool.noConfusion hfalse
        · rintro ⟨q, hq, hkq⟩
          simp only [PMState.current_phase] at hq
          cases hq
          exact absurd hkq hk
        · intro hfalse; rw [hic] at hfalse; exact Bool.noConfusion hfalse

theorem pmInv_foldl (cont : Option (List Int)) (events : List (Option Int))
    (s : PMState) (h : PMInv cont s) :
    PMInv cont (events.foldl (handlePhaseTransition cont) s) := by
  induction events generalizing s with
  | nil => exact h
  | cons e es ih => exact ih _ (pmInv_step cont s e h)

theorem foldl_current (cont : Option (List Int)) (events : List (Option Int))
    (s : PMState) :
    (events.foldl (handlePhaseTransition cont) s).current_phase =
      events.getLastD s.current_phase := by
  induction events generalizing s with
  | nil => rfl
  | cons e es ih =>
    rw [List.foldl_cons, ih, handlePhaseTransition_current, List.getLastD_cons]

theorem loopTaskAlive_iff (cont : Option (List Int)) (s : PMState)
    (h : PMInv cont s) :
    loopTaskAlive s = true ↔
      ∃ p, s.current_phase = some p ∧ continuousCheck cont p = true := by
  obtain ⟨h1, h2⟩ := h
  unfold loopTaskAlive
  rw [List.any_eq_true]
  constructor
  · rintro ⟨t, ht, hw⟩
    unfold taskWillContinue at hw
    simp only [Bool.and_eq_true, beq_iff_eq] at hw
    obtain ⟨⟨-, hic⟩, hcur⟩ := hw
    obtain ⟨q, hq, hkq⟩ := h1.mp hic
    exact ⟨q, hq, hkq⟩
  · rintro ⟨p, hp, hkp⟩
    have hic : s.in_continuous_phase = true := h1.mpr ⟨p, hp, hkp⟩
    obtain ⟨t, htm, hcount, hcur⟩ := h2 hic
    refine ⟨t, htm, ?_⟩
    unfold taskWillContinue
    simp [hcount, hic, hcur]

/-- **C2.** For every finite sequence of phase-transition events delivered
to the phase machine (starting from the initial state with
`current_phase = None`), after all events are processed the current phase
equals the phase value carried by the most recent transition event
(`getLastD events none`, which is the initial `None` for the empty
sequence), and a continuous-loop task is alive if and only if the current
phase is a member of the configured `continuous_phases`. -/
theorem c2_phase_fold_current_and_alive_iff (l : List Int)
    (events : List (Option Int)) :
    (events.foldl (handlePhaseTransition (some l)) initPMState).current_phase
      = events.getLastD none
    ∧ (loopTaskAlive
         (events.foldl (handlePhaseTransition (some l)) initPMState) = true
       ↔ ∃ p,
           (events.foldl (handlePhaseTransition (some l))
             initPMState).current_phase = some p ∧ p ∈ l) := by
  constructor
  · exact foldl_current (some l) events initPMState
  · have hinv := pmInv_foldl (some l) events initPMState (pmInv_init (some l))
    rw [loopTaskAlive_iff (some l) _ hinv]
    constructor
    · rintro ⟨p, hp, hk⟩
      exact ⟨p, hp, (continuousCheck_some_iff l p).mp hk⟩
    · rintro ⟨p, hp, hk⟩
      exact ⟨p, hp, (continuousCheck_some_iff l p).mpr hk⟩

/-- **C3, counterexample.** The claim says at most one continuous-loop
task is ever alive, and that a transition event carrying the same phase
number as the current continuous phase still cancels the prior loop
before a new one starts.  The code's guard (phase.py:228) is
`new_phase != self.current_phase`, so a repeated transition event for the
running continuous phase skips the cancellation and then spawns a second
loop task (phase.py:250): after the event sequence `[6, 6]` with
`continuous_phases = {6}`, two spawned loop tasks both pass the
keep-looping test, and no `.cancel()` was ever called. -/
theorem c3_counterexample_same_phase_two_loops :
    ((([some 6, some 6] : List (Option Int)).foldl
        (handlePhaseTransition (some [6])) initPMState).tasks.filter
        (taskWillContinue
          (([some 6, some 6] : List (Option Int)).foldl
            (handlePhaseTransition (some [6])) initPMState))).length = 2
    ∧ (([some 6, some 6] : List (Option Int)).foldl
        (handlePhaseTransition (some [6])) initPMState).tasks.all
        (fun t => t.cancelCount == 0) = true := by
  constructor
  · decide
  · decide

/-- **C3, amended.** While a continuous-loop task is running (flag set,
task handle stored), a transition event carrying a *different* phase
cancels the stored task exactly once (one `.cancel()` call), clears the
handle, and any newly spawned loop is a distinct fresh task; but a
transition event carrying the *same* phase as the running continuous
phase skips the cancellation and spawns an additional loop task, so two
loop tasks can be alive at once. -/
theorem c3_amended_cancel_once_or_duplicate (cont : Option (List Int))
    (s : PMState) (e : Option Int) (i : Nat)
    (hfresh : ∀ t ∈ s.tasks, t.id < s.next_id)
    (hic : s.in_continuous_phase = true)
    (hstored : s.continuous_task = some i) :
    (e ≠ s.current_phase →
       ((handlePhaseTransition cont s e).tasks = cancelTask s.tasks i
          ∧ (handlePhaseTransition cont s e).continuous_task = none)
       ∨ ∃ p, e = some p ∧ continuousCheck cont p = true
           ∧ (handlePhaseTransition cont s e).tasks
               = cancelTask s.tasks i ++ [⟨s.next_id, p, 0⟩]
           ∧ (handlePhaseTransition cont s e).continuous_task = some s.next_id
           ∧ ∀ t ∈ s.tasks, t.id ≠ s.next_id)
    ∧ (∀ p, e = some p → s.current_phase = some p →
        continuousCheck cont p = true →
        (handlePhaseTransition cont s e).tasks = s.tasks ++ [⟨s.next_id, p, 0⟩]
        ∧ (handlePhaseTransition cont s e).in_continuous_phase = true
        ∧ (handlePhaseTransition cont s e).continuous_task = some s.next_id) := by
  constructor
  · intro hne
    have hc : s.in_continuous_phase = true ∧ e ≠ s.current_phase := ⟨hic, hne⟩
    unfold handlePhaseTransition
    rw [if_pos hc, hstored]
    cases e with
    | none => exact Or.inl ⟨rfl, rfl⟩
    | some p =>
      by_cases hk : continuousCheck cont p = true
      · dsimp only
        rw [if_pos hk]
        exact Or.inr ⟨p, rfl, hk, rfl, rfl,
          fun t ht => Nat.ne_of_lt (hfresh t ht)⟩
      · dsimp only
        rw [if_neg hk]
        exact Or.inl ⟨rfl, rfl⟩
  · intro p hep hcur hk
    have hc : ¬ (s.in_continuous_phase = true ∧ e ≠ s.current_phase) := by
      rintro ⟨-, hne⟩
      exact hne (hep.trans hcur.symm)
    unfold handlePhaseTransition
    rw [if_neg hc]
    subst hep
    dsimp only
    rw [if_pos hk]
    exact ⟨rfl, rfl, rfl⟩

theorem c3_amended_witness :
    (handlePhaseTransition (some [6])
        ⟨some 6, true, some 0, [⟨0, 6, 0⟩], 1⟩ (some 7)).tasks = [⟨0, 6, 1⟩]
    ∧ (handlePhaseTransition (some [6])
        ⟨some 6, true, some 0, [⟨0, 6, 0⟩], 1⟩ (some 6)).tasks
        = [⟨0, 6, 0⟩, ⟨1, 6, 0⟩] := by
  have h7 := c3_amended_cancel_once_or_duplicate (some [6])
    ⟨some 6, true, some 0, [⟨0, 6, 0⟩], 1⟩ (some 7) 0 (by decide) rfl rfl
  have h6 := c3_amended_cancel_once_or_duplicate (some [6])
    ⟨some 6, true, some 0, [⟨0, 6, 0⟩], 1⟩ (some 6) 0 (by decide) rfl rfl
  constructor
  · rcases h7.1 (by decide) with ⟨ht, -⟩ | ⟨p, hp, hk, -⟩
    · exact ht
    · cases hp
      exact absurd hk (by decide)
  · exact ((h6.2) 6 rfl rfl (by decide)).1

/-- **C4, counterexample.** The claim says an exception (other than
cancellation) raised during one iteration of the continuous-phase loop is
logged and the loop proceeds to its next sleep-and-act iteration, never
terminating the task.  In the code the `except Exception` clause
(phase.py:280-281) sits *outside* the `while`, so the exception ends the
loop: with two available full iterations whose first action raises, the
task attempts exactly one action and ends with the logged exception,
whereas the same two iterations without the raise run both actions and
leave the loop still running. -/
theorem c4_counterexample_exception_ends_loop :
    continuousPhaseLoop
        [⟨true, true, true, .raises⟩, ⟨true, true, true, .ok⟩]
      = (1, .exceptionLogged)
    ∧ continuousPhaseLoop
        [⟨true, true, true, .ok⟩, ⟨true, true, true, .ok⟩]
      = (2, .running) := by
  constructor
  · rfl
  · rfl

/-- **C4, amended.** In the continuous-phase background loop, any
exception other than cancellation raised by `execute_phase_action` during
an iteration that was actually reached is logged and *terminates* the
loop task immediately: no further iteration runs, whatever the scheduler
would have offered next. -/
theorem c4_amended_exception_logged_terminates (it : LoopIter)
    (rest : List LoopIter)
    (h1 : it.in_cont_at_check = true)
    (h2 : it.in_cont_after_sleep = true)
    (h3 : it.phase_matches = true)
    (h4 : it.action = .raises) :
    continuousPhaseLoop (it :: rest) = (1, .exceptionLogged) := by
  unfold continuousPhaseLoop
  rw [h1, h2, h3, h4]
  rfl

theorem c4_amended_witness :
    continuousPhaseLoop
        [⟨true, true, true, .raises⟩, ⟨true, true, true, .ok⟩,
         ⟨true, true, true, .ok⟩]
      = (1, .exceptionLogged) :=
  c4_amended_exception_logged_terminates ⟨true, true, true, .raises⟩
    [⟨true, true, true, .ok⟩, ⟨true, true, true, .ok⟩] rfl rfl rfl rfl

/-- **C5.** For every dispatched event, regardless of its event type, the
registered callables execute in exactly the fixed stage order
global-pre → type-specific-pre → global-handlers → type-specific-handlers
→ type-specific-post → global-post, each stage running its list
sequentially in registration order (registration appends, so the stored
lists are in registration order); in particular the spec's
six-instrumented-callables scenario records exactly the six labels in
that order. -/
theorem c5_pipeline_stage_order :
    (∀ (K St : Type) (d : Dispatcher K) (sem : K → St → Except PyErr St)
       (et : String) (st : St),
       (onEvent d sem et st).2.1 =
         d.global_pre_event_hooks ++ stageFor d.pre_event_hooks et ++
         d.global_event_handlers ++ stageFor d.event_handlers et ++
         stageFor d.post_event_hooks et ++ d.global_post_event_hooks)
    ∧ (onEvent
         (registerGlobalPostEventHook
           (registerPostEventHook
             (registerEventHandler
               (registerGlobalEventHandler
                 (registerPreEventHook
                   (registerGlobalPreEventHook ({} : Dispatcher String)
                     "global-pre")
                   "E1" "specific-pre")
                 "global-handler")
               "E1" "specific-handler")
             "E1" "specific-post")
           "global-post")
         (throwSem (fun (_ : String) => false)) "E1" ()).2.1
       = ["global-pre", "specific-pre", "global-handler",
          "specific-handler", "specific-post", "global-post"] := by
  refine ⟨fun K St d sem et st => onEvent_trace d sem et st, ?_⟩
  rfl

/-- **C6.** Event dispatch never raises to its caller: each callable runs
inside its own `try/except Exception` in `_execute_hooks`, so `on_event`
is a total function of the registration state.  Whichever callables
throw, the invocation trace is identical to the all-succeed trace — every
other registered callable in the same stage and in all later stages still
executes — and the logged errors are exactly the throwing invocations. -/
theorem c6_dispatch_isolated_errors_logged :
    ∀ (K St : Type) (d : Dispatcher K) (sem : K → St → Except PyErr St)
      (throws : K → Bool) (et : String) (st : St),
      (onEvent d sem et st).2.1
        = (onEvent d (fun _ g => Except.ok g) et st).2.1
      ∧ (onEvent d (throwSem throws) et st).2.2
        = ((onEvent d (throwSem throws) et st).2.1).filter throws := by
  intro K St d sem throws et st
  exact ⟨by rw [onEvent_trace, onEvent_trace],
         onEvent_throwSem_errors d throws et st⟩

/-- **C1.** With a state snapshot configured, the global pre-event hook
`PhaseManager._update_state` calls `self._state.update(message)`; the
`GameState` class defines `update_state` but no `update`, so the call
raises `AttributeError` for every inbound event.  Dispatched through the
pipeline, the error is caught and logged by `_execute_hooks`'s
per-callable isolation, dispatch completes normally, and the state
snapshot is left completely unchanged by the declarative event path. -/
theorem c1_update_state_hook_attribute_error_isolated :
    ∀ (cls : GameStateClass) (st : GState) (ev : Message EventData),
      phaseManagerUpdateState cls st ev = .error .attributeError
      ∧ onEvent
          (registerGlobalPreEventHook ({} : Dispatcher String) "_update_state")
          (fun _ g => phaseManagerUpdateState cls g ev) ev.event_type st
        = (st, ["_update_state"], ["_update_state"]) := by
  intro cls st ev
  exact ⟨rfl, rfl⟩

/-- **C8.** If a custom handler is registered for the event's type, the
state-update operation invokes exactly that handler with the event type
and data and returns; the declarative property mappings are never
consulted — the result is the same for any mappings list whatsoever. -/
theorem c8_custom_handler_exclusive (cls : GameStateClass) (st : GState)
    (ev : Message EventData) (h : CustomHandler)
    (hh : cls.custom_handlers.lookup ev.event_type = some h) :
    updateState cls st ev = h ev.event_type ev.data st
    ∧ ∀ maps : List PropertyMapping,
        updateState { cls with property_mappings := maps } st ev
          = h ev.event_type ev.data st := by
  constructor
  · unfold updateState
    rw [hh]
  · intro maps
    unfold updateState
    show (match cls.custom_handlers.lookup ev.event_type with
          | some h => h ev.event_type ev.data st
          | none => _) = h ev.event_type ev.data st
    rw [hh]

theorem c8_custom_handler_exclusive_witness :
    updateState
        ⟨[⟨"k", "f", "private", none, none⟩],
         [("profit", fun _ _ st => { st with metaPhase := 99 })]⟩
        {} ⟨"event", "profit", [("k", .vInt 5)]⟩
      = { ({} : GState) with metaPhase := 99 } :=
  (c8_custom_handler_exclusive
    ⟨[⟨"k", "f", "private", none, none⟩],
     [("profit", fun _ _ st => { st with metaPhase := 99 })]⟩
    {} ⟨"event", "profit", [("k", .vInt 5)]⟩
    (fun _ _ st => { st with metaPhase := 99 }) rfl).1

/-- **C7** (evaluation of the code at the failing input).  This revision
of `PropertyMapping` has no event filter at all: `update_state` applies a
mapping to any event type whose data carries the `event_key`, so an event
of type `"E2"` carrying the source key does write the target field —
contradicting the claim that only `"E1"` may — and the
`events`-allow-list keyword one would use to configure the filter is
silently dropped by construction. -/
theorem c7_no_event_filter_any_type_writes :
    (updateState ⟨[⟨"k", "f", "private", none, none⟩], []⟩ {}
        ⟨"event", "E2", [("k", .vInt 5)]⟩).private_information
      = [("f", .vInt 5)]
    ∧ propertyMappingInit "k" "f" "private" none none (some ["E1"]) none
        = .ok ⟨"k", "f", "private", none, none⟩ := by
  exact ⟨rfl, rfl⟩

/-- **C9** (evaluation of the code at the failing input).  Constructing a
mapping with both `events` and `exclude_events` succeeds — the two
keywords are not fields of this revision's `PropertyMapping` and pydantic
silently ignores them — so no construction error is raised for the event
filter, contradicting the claim (and the repository's own test
`test_initialization_with_both_event_lists`); the phase-filter half does
raise as claimed. -/
theorem c9_both_event_lists_accepted :
    propertyMappingInit "k" "s" "private" none none
        (some ["event1"]) (some ["event2"])
      = .ok ⟨"k", "s", "private", none, none⟩
    ∧ propertyMappingInit "k" "s" "private" (some [1]) (some [2]) none none
      = .error (.valueError "Cannot specify both phases and exclude_phases") := by
  exact ⟨rfl, rfl⟩

/-- **C10.** An inbound frame that parses as JSON but is not a JSON object
(for example `42` or `[1,2]`) makes `_extract_message_data` raise an
uncaught `AttributeError` at `msg.get` (only `json.JSONDecodeError` is
handled there); the error reaches the receive loop's blanket
`except Exception`, which logs it and breaks, terminating the session —
no later frame is processed.  A non-JSON frame, by contrast, is logged
and dropped inside `_extract_message_data` and the loop continues
unchanged. -/
theorem c10_nonobject_json_breaks_receive_loop :
    extractMessageData (.json (.jNum 42)) = .error .attributeError
    ∧ extractMessageData (.json (.jArr [.jNum 1, .jNum 2]))
        = .error .attributeError
    ∧ (∀ (n : Int) (rest : List RecvItem),
        receiveMessages (.frame (.json (.jNum n)) :: rest) = (0, .errorBreak))
    ∧ (∀ (raw : String) (rest : List RecvItem),
        receiveMessages (.frame (.notJson raw) :: rest)
          = receiveMessages rest) := by
  refine ⟨rfl, rfl, ?_, ?_⟩
  · intro n rest
    rfl
  · intro raw rest
    rfl

end Econagents

